import Mathlib

/-!
Verification of the InnerBlocks subsystem
(`src/packages/block-editor/src/components/inner-blocks/index.js`).

The development shallowly embeds the module's render logic: JavaScript
values are modelled by `JSVal` (with JS truthiness), the block-editor
store selectors consumed by the module are an abstract `Store` record,
the block-type registry is a function `String → Option BlockType`, and
the rendered React trees are values of `RenderNode`.  Helper modules
that this file imports but whose sources are not part of the repository
snapshot (`get-block-context`, `use-nested-settings-update`,
`use-inner-block-template-sync`) are modelled from the specification and
marked as such in their doc comments.
-/

/-- A JavaScript value, as far as this module's logic inspects values:
`undefined`, `null`, booleans, numbers, strings, and the two kinds of
truthy reference values the props carry (block arrays and callback
functions, tagged by an opaque index). -/
inductive JSVal where
  | undefined : JSVal
  | null : JSVal
  | boolean : Bool → JSVal
  | number : Int → JSVal
  | string : String → JSVal
  | array : Nat → JSVal
  | function : Nat → JSVal
deriving DecidableEq, Repr

/-- JavaScript truthiness: `undefined`, `null`, `false`, `0` and `""`
are falsy; every object (arrays, functions) is truthy. -/
def JSVal.truthy : JSVal → Bool
  | .undefined => false
  | .null => false
  | .boolean b => b
  | .number n => n != 0
  | .string s => s != ""
  | .array _ => true
  | .function _ => true

/-- Reading a possibly-absent prop: a missing key reads as `undefined`. -/
def propGet (o : Option JSVal) : JSVal :=
  match o with
  | some v => v
  | none => .undefined

/-- JavaScript property access `obj[k]` on an attribute record modelled
as an association list: a missing key yields `undefined`. -/
def jsGet (attrs : List (String × JSVal)) (k : String) : JSVal :=
  match attrs.find? (fun p => p.1 = k) with
  | some p => p.2
  | none => .undefined

/-- A block as this module reads it from the store: `block.name` and
`block.attributes` are the only fields accessed. -/
structure Block where
  name : String
  attributes : List (String × JSVal)
deriving DecidableEq, Repr

/-- The slice of `select( 'core/block-editor' )` this module consumes:
`getBlock`, `getBlockName`, `isBlockSelected`, `hasSelectedInnerBlock`
and `isNavigationMode`.  All are opaque selector results. -/
structure Store where
  getBlock : String → Option Block
  getBlockName : String → Option String
  isBlockSelected : String → Bool
  hasSelectedInnerBlock : String → Bool → Bool
  isNavigationMode : Bool

/-- A block-type registry entry, with its optional `providesContext`
declaration.  `providesContext` is a JS object mapping attribute names
to context keys; `none` models an absent declaration (falsy in JS),
`some m` a declared object (truthy even when empty). -/
structure BlockType where
  providesContext : Option (List (String × String))
deriving DecidableEq, Repr

/-- Which component the mode selector dispatches to. -/
inductive ComponentChoice where
  | controlledIB : ComponentChoice
  | uncontrolledIB : ComponentChoice
deriving DecidableEq, Repr

/-- `ForwardedInnerBlocks` (index.js line 149): dispatches to
`ControlledInnerBlocks` exactly when `props.value && props.onChange`
is truthy, re-evaluated on every render from the current props. -/
def forwardedInnerBlocksDispatch (value onChange : Option JSVal) : ComponentChoice :=
  if (propGet value).truthy && (propGet onChange).truthy then
    .controlledIB
  else
    .uncontrolledIB

/-- `InnerBlocks` (index.js line 219): the same dispatch,
`props.value && props.onChange ? ControlledInnerBlocks : Uncontrolled`. -/
def innerBlocksDispatch (value onChange : Option JSVal) : ComponentChoice :=
  if (propGet value).truthy && (propGet onChange).truthy then
    .controlledIB
  else
    .uncontrolledIB

/-- The `classnames` library call, embedded at the granularity of class
tokens: each truthy string argument contributes its token, and each
object entry contributes its key when its value is truthy, in argument
order.  (`classnames` itself joins the tokens with single spaces; the
token list carries the same information.) -/
def classnames (strs : List (Option String)) (flags : List (String × Bool)) : List String :=
  (strs.filterMap id).filter (fun s => s != "") ++ (flags.filter (fun p => p.2)).map (fun p => p.1)

/-- Modelled from the spec: the implementation of
`getBlockContext( attributes, blockType )` lives in
`get-block-context.js`, which is not part of the repository snapshot.
Per §4.1, the output is "a context bag containing, for each
(attribute-name → context-key) pair declared by the descriptor, an
entry context-key → current attribute value.  If the descriptor
declares no such mapping, output is empty." -/
def getBlockContext (attributes : List (String × JSVal)) (blockType : BlockType) :
    List (String × JSVal) :=
  match blockType.providesContext with
  | none => []
  | some mapping => mapping.map (fun p => (p.2, jsGet attributes p.1))

/-- The rendered output tree, at the granularity this module builds it:
the pass-through `BlockList` / `BlockListItems` renderers are leaves
(with the `rootClientId` and computed class tokens they receive), and
the wrappers the module may add (`BlockContextProvider`, the outer
`div`) are nodes. -/
inductive RenderNode where
  | blockList : String → List String → RenderNode
  | blockListItems : String → RenderNode
  | contextProvider : List (String × JSVal) → RenderNode → RenderNode
  | div : List String → RenderNode → RenderNode
deriving DecidableEq, Repr

/-- Whether a rendered tree contains a `BlockContextProvider` wrapper. -/
def RenderNode.hasContextWrapper : RenderNode → Bool
  | .blockList _ _ => false
  | .blockListItems _ => false
  | .contextProvider _ _ => true
  | .div _ child => child.hasContextWrapper

/-- The class tokens of the inner `BlockList` element of a rendered
tree, when one is present. -/
def RenderNode.innerListClass : RenderNode → Option (List String)
  | .blockList _ cls => some cls
  | .blockListItems _ => none
  | .contextProvider _ child => child.innerListClass
  | .div _ child => child.innerListClass

/-- The context value of the `BlockContextProvider` wrapper of a
rendered tree, when one is present. -/
def RenderNode.contextValue : RenderNode → Option (List (String × JSVal))
  | .blockList _ _ => none
  | .blockListItems _ => none
  | .contextProvider v _ => some v
  | .div _ child => child.contextValue

/-- The result record of the `useSelect` call inside
`UncontrolledInnerBlocks` (index.js lines 53–69). -/
structure InnerBlocksSelectResult where
  block : Block
  hasOverlay : Bool
  enableClickThrough : Bool
deriving DecidableEq, Repr

/-- The `useSelect` computation of `UncontrolledInnerBlocks`
(index.js lines 53–69).  `theBlock = getBlock( clientId )` is
dereferenced unconditionally (`theBlock.name`), so an absent block makes
the selector throw a `TypeError`; that is modelled as `Except.error`. -/
def innerBlocksSelect (store : Store) (clientId : String) (isSmallScreen : Bool) :
    Except String InnerBlocksSelectResult :=
  match store.getBlock clientId with
  | none => .error "TypeError: Cannot read properties of undefined (reading name)"
  | some theBlock =>
      .ok
        { block := theBlock
          hasOverlay :=
            theBlock.name != "core/template" &&
            !(store.isBlockSelected clientId) &&
            !(store.hasSelectedInnerBlock clientId true)
          enableClickThrough := store.isNavigationMode || isSmallScreen }

/-- The props of `UncontrolledInnerBlocks` that affect its rendered
output.  `captureToolbars` and `experimentalTagName` record the
truthiness of `__experimentalCaptureToolbars` and
`__experimentalTagName`. -/
structure UIBProps where
  clientId : String
  captureToolbars : Bool
  experimentalTagName : Bool
deriving DecidableEq, Repr

/-- The render function of `UncontrolledInnerBlocks`
(index.js lines 39–117): selects the block and overlay state, computes
the class tokens, renders `BlockList`, wraps it in a
`BlockContextProvider` exactly when the registered block type declares
`providesContext`, and wraps the result in the
`block-editor-inner-blocks` div unless `__experimentalTagName` is set. -/
def UncontrolledInnerBlocksRender (store : Store) (registry : String → Option BlockType)
    (props : UIBProps) (isSmallScreen : Bool) : Except String RenderNode :=
  match innerBlocksSelect store props.clientId isSmallScreen with
  | .error e => .error e
  | .ok sel =>
      let classes := classnames []
        [("has-overlay", sel.enableClickThrough && sel.hasOverlay),
         ("is-capturing-toolbar", props.captureToolbars)]
      let blockList := RenderNode.blockList props.clientId classes
      let blockList :=
        match registry sel.block.name with
        | some blockType =>
            match blockType.providesContext with
            | some _ =>
                RenderNode.contextProvider (getBlockContext sel.block.attributes blockType)
                  blockList
            | none => blockList
        | none => blockList
      if props.experimentalTagName then .ok blockList
      else .ok (RenderNode.div ["block-editor-inner-blocks"] blockList)

/-- The render function of `Uncontrolled` (index.js lines 155–214):
renders `BlockListItems`, and only when the block exists and its
registered type declares `providesContext` wraps it in a
`BlockContextProvider`; an absent block or absent/undeclared type
descriptor falls through to the bare list. -/
def UncontrolledRender (store : Store) (registry : String → Option BlockType)
    (clientId : String) : RenderNode :=
  let blockListItems := RenderNode.blockListItems clientId
  match store.getBlock clientId with
  | none => blockListItems
  | some block =>
      match registry block.name with
      | none => blockListItems
      | some blockType =>
          match blockType.providesContext with
          | none => blockListItems
          | some _ =>
              RenderNode.contextProvider (getBlockContext block.attributes blockType)
                blockListItems

/-- A template lock mode: the spec's `"all" | "insert" | false`. -/
inductive TemplateLock where
  | lockAll : TemplateLock
  | lockInsert : TemplateLock
  | lockFalse : TemplateLock
deriving DecidableEq, Repr

/-- Modelled from the spec: a template node, "ordered tree of
(type name, attribute defaults, child template nodes)" (§3);
template-definition parsing is out of scope of the repository
snapshot. -/
inductive TemplateNode where
  | mk : String → List (String × JSVal) → List TemplateNode → TemplateNode

/-- Modelled from the spec: a child block synthesized from a template
node, carrying the template's type name, attribute defaults and
recursively synthesized children (§4.3). -/
inductive SynthBlock where
  | mk : String → List (String × JSVal) → List SynthBlock → SynthBlock

mutual

/-- Structural equality of template nodes (the hook compares the
current template with the one it last saw). -/
def tnodeEq : TemplateNode → TemplateNode → Bool
  | .mk n1 a1 c1, .mk n2 a2 c2 => n1 == n2 && a1 == a2 && tlistEq c1 c2

/-- Structural equality of template forests. -/
def tlistEq : List TemplateNode → List TemplateNode → Bool
  | [], [] => true
  | t :: ts, u :: us => tnodeEq t u && tlistEq ts us
  | _, _ => false

end

mutual

/-- Modelled from the spec: synthesize the child block described by one
template node (§4.3 "synthesize child blocks matching the template"). -/
def synthesizeNode : TemplateNode → SynthBlock
  | .mk name attrs inner => .mk name attrs (synthesizeList inner)

/-- Modelled from the spec: synthesize the child blocks described by a
template forest. -/
def synthesizeList : List TemplateNode → List SynthBlock
  | [] => []
  | t :: ts => synthesizeNode t :: synthesizeList ts

end

/-- The per-root-id settings record the Settings Propagator maintains
(§3, §4.2): allowed child types, template lock, toolbar-capture flag,
orientation. -/
structure NestedSettings where
  allowedBlocks : Option (List String)
  templateLock : Option TemplateLock
  captureToolbars : Bool
  orientation : Option String
deriving DecidableEq, Repr

/-- First-`some` choice between two optional values (a supplied setting
wins over the inherited one). -/
def orElseOpt {α : Type} (a b : Option α) : Option α :=
  match a with
  | some x => some x
  | none => b

/-- Association-list lookup keyed by root id. -/
def lookupAssoc {α : Type} (l : List (String × α)) (k : String) : Option α :=
  match l.find? (fun p => p.1 == k) with
  | some p => some p.2
  | none => none

/-- Association-list update keyed by root id. -/
def setAssoc {α : Type} (l : List (String × α)) (k : String) (v : α) : List (String × α) :=
  (k, v) :: l.filter (fun p => p.1 != k)

/-- The store state the two side-effect hooks read and write: the
per-root-id nested-list settings, the per-root-id child blocks, and the
template each root id was last synchronized against (the hook's
persisted "first association" marker). -/
structure EditorState where
  settingsMap : List (String × NestedSettings)
  childrenMap : List (String × List SynthBlock)
  lastTemplateMap : List (String × List TemplateNode)

/-- The template lock currently resolved for a root id from the stored
settings. -/
def resolvedLock (st : EditorState) (clientId : String) : Option TemplateLock :=
  match lookupAssoc st.settingsMap clientId with
  | some s => s.templateLock
  | none => none

/-- The child blocks currently stored for a root id (`[]` when none are
recorded). -/
def storedChildren (st : EditorState) (clientId : String) : List SynthBlock :=
  match lookupAssoc st.childrenMap clientId with
  | some cs => cs
  | none => []

/-- Modelled from the spec: the effect of `useNestedSettingsUpdate`
(`use-nested-settings-update.js` is not part of the repository
snapshot).  Per §4.2 it "writes a merged settings record keyed by the
nested-list's root id, where unset fields fall back to the nearest
ancestor's resolved value" — here the previously stored resolved
record — and is a no-op when the merged result is unchanged ("must not
thrash"). -/
def applyNestedSettingsUpdate (st : EditorState) (clientId : String)
    (allowedBlocks : Option (List String)) (templateLock : Option TemplateLock)
    (captureToolbars : Bool) (orientation : Option String) : EditorState :=
  let prev := lookupAssoc st.settingsMap clientId
  let inherited : NestedSettings :=
    match prev with
    | some s => s
    | none =>
        { allowedBlocks := none, templateLock := none
          captureToolbars := false, orientation := none }
  let merged : NestedSettings :=
    { allowedBlocks := orElseOpt allowedBlocks inherited.allowedBlocks
      templateLock := orElseOpt templateLock inherited.templateLock
      captureToolbars := captureToolbars
      orientation := orElseOpt orientation inherited.orientation }
  if prev = some merged then st
  else { st with settingsMap := setAssoc st.settingsMap clientId merged }

/-- Modelled from the spec: the effect of `useInnerBlockTemplateSync`
(`use-inner-block-template-sync.js` is not part of the repository
snapshot).  Per §4.3: on first association of a root id with a template,
synthesize and insert children only when no children yet exist and the
template is non-empty (an already-populated list is never overwritten);
afterwards, only a *changed* template is re-applied, and only under lock
`"all"` (the lock is consulted from the settings the propagator wrote);
re-renders with an identical template are skipped (equality-based skip
logic, §9). -/
def applyTemplateSync (st : EditorState) (clientId : String)
    (tmpl : List TemplateNode) : EditorState :=
  match lookupAssoc st.lastTemplateMap clientId with
  | some prevTmpl =>
      if tlistEq prevTmpl tmpl then st
      else
        let st1 := { st with lastTemplateMap := setAssoc st.lastTemplateMap clientId tmpl }
        if resolvedLock st clientId = some .lockAll then
          { st1 with childrenMap := setAssoc st1.childrenMap clientId (synthesizeList tmpl) }
        else st1
  | none =>
      let st1 := { st with lastTemplateMap := setAssoc st.lastTemplateMap clientId tmpl }
      let existing := storedChildren st clientId
      if existing.isEmpty && !tmpl.isEmpty then
        { st1 with childrenMap := setAssoc st1.childrenMap clientId (synthesizeList tmpl) }
      else st1

/-- One side effect scheduled by a render: a Settings Propagator write
or a Template Synchronizer reconciliation. -/
inductive Effect where
  | settingsUpdate : String → Option (List String) → Option TemplateLock → Bool →
      Option String → Effect
  | templateSync : String → List TemplateNode → Effect

/-- Apply one effect to the editor state. -/
def applyEffect (st : EditorState) : Effect → EditorState
  | .settingsUpdate id allowed lock capture orient =>
      applyNestedSettingsUpdate st id allowed lock capture orient
  | .templateSync id tmpl => applyTemplateSync st id tmpl

/-- Apply a render's effects in order. -/
def runEffects (st : EditorState) (effects : List Effect) : EditorState :=
  effects.foldl applyEffect st

/-- The hook arguments a render passes to the two effect hooks. -/
structure HookProps where
  clientId : String
  allowedBlocks : Option (List String)
  templateLock : Option TemplateLock
  captureToolbars : Bool
  orientation : Option String
  template : List TemplateNode

/-- The effects scheduled by one render of `UncontrolledInnerBlocks`,
in hook call order (index.js lines 71–84): `useNestedSettingsUpdate`
first, `useInnerBlockTemplateSync` second. -/
def uncontrolledInnerBlocksEffects (p : HookProps) : List Effect :=
  [ .settingsUpdate p.clientId p.allowedBlocks p.templateLock p.captureToolbars p.orientation,
    .templateSync p.clientId p.template ]

/-- The effects scheduled by one render of `Uncontrolled`, in hook call
order (index.js lines 167–180): the same two hooks in the same order. -/
def uncontrolledEffects (p : HookProps) : List Effect :=
  [ .settingsUpdate p.clientId p.allowedBlocks p.templateLock p.captureToolbars p.orientation,
    .templateSync p.clientId p.template ]

/-- The lock mode the Template Synchronizer observes for `clientId` at
the moment its effect runs, given an initial state and a render's
effect list applied in order; `none` when the list schedules no
synchronization for that id. -/
def lockSeenAt (st : EditorState) (effects : List Effect) (clientId : String) :
    Option (Option TemplateLock) :=
  match effects with
  | [] => none
  | e :: rest =>
      match e with
      | .templateSync id _ =>
          if id = clientId then some (resolvedLock st clientId)
          else lockSeenAt (applyEffect st e) rest clientId
      | _ => lockSeenAt (applyEffect st e) rest clientId

/-- The `hasOverlay` computation of `useInnerBlocksProps`
(index.js lines 228–244): there the navigation-mode / small-viewport
gate is part of the single conjunction, and `getBlockName` is compared
with `!==` (an absent name compares unequal to the string). -/
def useInnerBlocksPropsHasOverlay (store : Store) (clientId : String)
    (isSmallScreen : Bool) : Bool :=
  (match store.getBlockName clientId with
   | some n => n != "core/template"
   | none => true) &&
  !(store.isBlockSelected clientId) &&
  !(store.hasSelectedInnerBlock clientId true) &&
  (store.isNavigationMode || isSmallScreen)

/-- The caller-supplied element props given to `useInnerBlocksProps`:
the `ref` and `className` fields the function rewrites (each possibly
absent or nullish), and every other field as an opaque record. -/
structure ElementProps where
  ref : Option Nat
  className : Option String
  dataFields : List (String × JSVal)
deriving DecidableEq, Repr

/-- The ref carried by the merged props: the caller's ref object
(tagged by its opaque index) or the hook's own fallback ref. -/
inductive RefVal where
  | fallback : RefVal
  | given : Nat → RefVal
deriving DecidableEq, Repr

/-- The merged props object returned by `useInnerBlocksProps`: the
untouched caller fields, the resolved `ref`, the computed class tokens,
and the `children` element (which `InnerBlocks` component it renders,
with its root id). -/
structure InnerBlocksPropsResult where
  dataFields : List (String × JSVal)
  ref : RefVal
  classNameTokens : List String
  children : ComponentChoice × String
deriving DecidableEq, Repr

/-- `useInnerBlocksProps` (index.js lines 224–260): spreads the caller
props, resolves `ref` as `props.ref || fallbackRef`, computes
`className` as `classnames( props.className,
'block-editor-block-list__layout', { 'has-overlay': hasOverlay } )`,
and renders `InnerBlocks` with the options as `children`. -/
def useInnerBlocksPropsFn (store : Store) (clientId : String) (isSmallScreen : Bool)
    (props : ElementProps) (optValue optOnChange : Option JSVal) :
    InnerBlocksPropsResult :=
  let ref : RefVal :=
    match props.ref with
    | some n => .given n
    | none => .fallback
  { dataFields := props.dataFields
    ref := ref
    classNameTokens :=
      classnames [props.className, some "block-editor-block-list__layout"]
        [("has-overlay", useInnerBlocksPropsHasOverlay store clientId isSmallScreen)]
    children := (innerBlocksDispatch optValue optOnChange, clientId) }

/-! ### Helper lemmas -/

theorem lookupAssoc_setAssoc_self {α : Type} (l : List (String × α)) (k : String) (v : α) :
    lookupAssoc (setAssoc l k v) k = some v := by
  simp [lookupAssoc, setAssoc, List.find?]

mutual

theorem tnodeEq_refl : ∀ t : TemplateNode, tnodeEq t t = true
  | .mk _ _ c => by simp [tnodeEq, tlistEq_refl c]

theorem tlistEq_refl : ∀ l : List TemplateNode, tlistEq l l = true
  | [] => by simp [tlistEq]
  | t :: ts => by simp [tlistEq, tnodeEq_refl t, tlistEq_refl ts]

end

theorem dispatch_controlled_iff (v f : Option JSVal) :
    (forwardedInnerBlocksDispatch v f = .controlledIB ↔
      (propGet v).truthy = true ∧ (propGet f).truthy = true) ∧
    (innerBlocksDispatch v f = .controlledIB ↔
      (propGet v).truthy = true ∧ (propGet f).truthy = true) := by
  unfold forwardedInnerBlocksDispatch innerBlocksDispatch
  constructor <;>
    · constructor
      · intro h
        by_cases h1 : (propGet v).truthy = true <;>
          by_cases h2 : (propGet f).truthy = true <;> simp_all
      · intro h
        simp [h.1, h.2]

/-! ### Claim theorems -/

/-- C1: on each render, the mode selector (both the
`ForwardedInnerBlocks` and the `InnerBlocks` dispatch) chooses
Controlled exactly when both a `value` (a block array) and an
`onChange` (a callback) prop are supplied on that render; the choice is
a pure function of the current render's props (no persisted mode), and
removing either prop yields Uncontrolled, with the dispatch total (no
throw). -/
theorem mode_selector_controlled_iff (v f : Option JSVal)
    (hv : ∀ x, v = some x → ∃ n, x = JSVal.array n)
    (hf : ∀ x, f = some x → ∃ n, x = JSVal.function n) :
    (forwardedInnerBlocksDispatch v f = .controlledIB ↔ v.isSome ∧ f.isSome) ∧
    (innerBlocksDispatch v f = .controlledIB ↔ v.isSome ∧ f.isSome) ∧
    forwardedInnerBlocksDispatch v none = .uncontrolledIB ∧
    forwardedInnerBlocksDispatch none f = .uncontrolledIB ∧
    innerBlocksDispatch v none = .uncontrolledIB ∧
    innerBlocksDispatch none f = .uncontrolledIB := by
  have htv : (propGet v).truthy = true ↔ v.isSome := by
    cases v with
    | none => simp [propGet, JSVal.truthy]
    | some x =>
        obtain ⟨n, rfl⟩ := hv x rfl
        simp [propGet, JSVal.truthy]
  have htf : (propGet f).truthy = true ↔ f.isSome := by
    cases f with
    | none => simp [propGet, JSVal.truthy]
    | some x =>
        obtain ⟨n, rfl⟩ := hf x rfl
        simp [propGet, JSVal.truthy]
  have hnone : (propGet (none : Option JSVal)).truthy = false := by
    simp [propGet, JSVal.truthy]
  refine ⟨?_, ?_, ?_, ?_, ?_, ?_⟩
  · rw [(dispatch_controlled_iff v f).1, htv, htf]
  · rw [(dispatch_controlled_iff v f).2, htv, htf]
  · simp [forwardedInnerBlocksDispatch, hnone]
  · simp [forwardedInnerBlocksDispatch, hnone]
  · simp [innerBlocksDispatch, hnone]
  · simp [innerBlocksDispatch, hnone]

theorem mode_selector_controlled_iff_witness :
    forwardedInnerBlocksDispatch (some (JSVal.array 0)) (some (JSVal.function 0)) =
      ComponentChoice.controlledIB ∧
    forwardedInnerBlocksDispatch (some (JSVal.array 0)) none =
      ComponentChoice.uncontrolledIB := by
  have h := mode_selector_controlled_iff (some (JSVal.array 0)) (some (JSVal.function 0))
    (fun x hx => ⟨0, by cases hx; rfl⟩) (fun x hx => ⟨0, by cases hx; rfl⟩)
  exact ⟨h.1.mpr ⟨rfl, rfl⟩, h.2.2.1⟩

/-- C9: the mode selector tests JS truthiness, not key presence — when
the `value` prop key is supplied with a falsy value (or `onChange` is
supplied falsy), both dispatch sites choose Uncontrolled even though
both props are present. -/
theorem mode_selector_truthiness (v f : Option JSVal) :
    (∀ x, v = some x → x.truthy = false →
      forwardedInnerBlocksDispatch v f = .uncontrolledIB ∧
      innerBlocksDispatch v f = .uncontrolledIB) ∧
    (∀ y, f = some y → y.truthy = false →
      forwardedInnerBlocksDispatch v f = .uncontrolledIB ∧
      innerBlocksDispatch v f = .uncontrolledIB) := by
  constructor
  · intro x hx hfalse
    subst hx
    constructor <;> simp [forwardedInnerBlocksDispatch, innerBlocksDispatch, propGet, hfalse]
  · intro y hy hfalse
    subst hy
    constructor <;> simp [forwardedInnerBlocksDispatch, innerBlocksDispatch, propGet, hfalse]

theorem mode_selector_truthiness_witness :
    forwardedInnerBlocksDispatch (some JSVal.null) (some (JSVal.function 0)) =
      ComponentChoice.uncontrolledIB ∧
    innerBlocksDispatch (some JSVal.null) (some (JSVal.function 0)) =
      ComponentChoice.uncontrolledIB :=
  (mode_selector_truthiness (some JSVal.null) (some (JSVal.function 0))).1
    JSVal.null rfl rfl

/-- C2: the overlay state computed for a present block is active exactly
when the block's name differs from `core/template`, the block is not
selected, and no descendant (deep) is selected; click-through is gated
separately by navigation mode or a small viewport.  In
`useInnerBlocksProps` the single `hasOverlay` value is the conjunction
of the overlay conditions and the click-through gate. -/
theorem overlay_state_iff (store : Store) (clientId : String) (small : Bool) (b : Block)
    (h : store.getBlock clientId = some b) :
    (∃ r, innerBlocksSelect store clientId small = .ok r ∧
      (r.hasOverlay = true ↔
        (b.name ≠ "core/template" ∧ store.isBlockSelected clientId = false ∧
         store.hasSelectedInnerBlock clientId true = false)) ∧
      (r.enableClickThrough = true ↔
        (store.isNavigationMode = true ∨ small = true))) ∧
    (useInnerBlocksPropsHasOverlay store clientId small = true ↔
      (store.getBlockName clientId ≠ some "core/template" ∧
       store.isBlockSelected clientId = false ∧
       store.hasSelectedInnerBlock clientId true = false ∧
       (store.isNavigationMode = true ∨ small = true))) := by
  constructor
  · refine ⟨_, by rw [innerBlocksSelect, h], ?_, ?_⟩
    · simp only [Bool.and_eq_true, Bool.not_eq_true', bne_iff_ne, ne_eq]
      tauto
    · simp [Bool.or_eq_true]
  · unfold useInnerBlocksPropsHasOverlay
    cases hn : store.getBlockName clientId with
    | none =>
        simp only [Bool.and_eq_true, Bool.not_eq_true', Bool.or_eq_true, ne_eq]
        tauto
    | some n =>
        simp only [Bool.and_eq_true, Bool.not_eq_true', Bool.or_eq_true, bne_iff_ne, ne_eq,
          Option.some.injEq]
        tauto

/-- A registered non-template block used by the concrete witnesses. -/
def blkA : Block :=
  { name := "core/columns", attributes := [("colCount", JSVal.number 3)] }

/-- A store holding `blkA` under id `b1`, nothing selected, navigation
mode on. -/
def storeA : Store :=
  { getBlock := fun id => if id = "b1" then some blkA else none
    getBlockName := fun id => if id = "b1" then some "core/columns" else none
    isBlockSelected := fun _ => false
    hasSelectedInnerBlock := fun _ _ => false
    isNavigationMode := true }

theorem overlay_state_iff_witness :
    useInnerBlocksPropsHasOverlay storeA "b1" false = true :=
  (overlay_state_iff storeA "b1" false blkA (by decide)).2.mpr
    ⟨by decide, by decide, by decide, Or.inl (by decide)⟩

/-- Whether the full-wrapper render path puts class token `tok` on the
inner `BlockList` container (`false` when the render throws). -/
def classInRender (store : Store) (registry : String → Option BlockType)
    (props : UIBProps) (small : Bool) (tok : String) : Bool :=
  match UncontrolledInnerBlocksRender store registry props small with
  | .ok n =>
      match n.innerListClass with
      | some toks => decide (tok ∈ toks)
      | none => false
  | .error _ => false

theorem mem_overlay_classnames (x y : Bool) :
    (("has-overlay" ∈ classnames [] [("has-overlay", x), ("is-capturing-toolbar", y)]) ↔
      x = true) ∧
    (("is-capturing-toolbar" ∈
        classnames [] [("has-overlay", x), ("is-capturing-toolbar", y)]) ↔ y = true) := by
  cases x <;> cases y <;> exact ⟨by decide, by decide⟩

theorem render_innerListClass (store : Store) (registry : String → Option BlockType)
    (props : UIBProps) (small : Bool) (r : InnerBlocksSelectResult)
    (h : innerBlocksSelect store props.clientId small = .ok r) :
    (UncontrolledInnerBlocksRender store registry props small).map RenderNode.innerListClass =
      .ok (some (classnames []
        [("has-overlay", r.enableClickThrough && r.hasOverlay),
         ("is-capturing-toolbar", props.captureToolbars)])) := by
  unfold UncontrolledInnerBlocksRender
  rw [h]
  cases hr : registry r.block.name with
  | none =>
      cases hT : props.experimentalTagName <;>
        simp [Except.map, RenderNode.innerListClass, hr, hT]
  | some bt =>
      cases hbt : bt.providesContext <;> cases hT : props.experimentalTagName <;>
        simp [Except.map, RenderNode.innerListClass, hr, hbt, hT]

/-- The class tokens the full wrapper computes, given the select
result: `tok ∈` the rendered container's tokens is decided by the
`classnames` call on the two flags. -/
theorem classInRender_eq (store : Store) (registry : String → Option BlockType)
    (props : UIBProps) (small : Bool) (r : InnerBlocksSelectResult) (tok : String)
    (h : innerBlocksSelect store props.clientId small = .ok r) :
    classInRender store registry props small tok =
      decide (tok ∈ classnames []
        [("has-overlay", r.enableClickThrough && r.hasOverlay),
         ("is-capturing-toolbar", props.captureToolbars)]) := by
  have hmap := render_innerListClass store registry props small r h
  unfold classInRender
  cases hrender : UncontrolledInnerBlocksRender store registry props small with
  | error e => rw [hrender] at hmap; exact absurd hmap (by simp [Except.map])
  | ok n =>
      rw [hrender] at hmap
      simp only [Except.map, Except.ok.injEq] at hmap
      simp [hmap]

/-- C3 (amended): the full-wrapper render path includes `has-overlay`
among the container's computed class names exactly when the overlay
state is active AND click-through is enabled (the code gates the class
on `enableClickThrough && hasOverlay`, index.js line 87), and includes
`is-capturing-toolbar` exactly when the capture-toolbars flag is set. -/
theorem wrapper_classes_amended (store : Store) (registry : String → Option BlockType)
    (props : UIBProps) (small : Bool) (b : Block)
    (h : store.getBlock props.clientId = some b) :
    (classInRender store registry props small "has-overlay" = true ↔
      ((store.isNavigationMode = true ∨ small = true) ∧
       b.name ≠ "core/template" ∧ store.isBlockSelected props.clientId = false ∧
       store.hasSelectedInnerBlock props.clientId true = false)) ∧
    (classInRender store registry props small "is-capturing-toolbar" = true ↔
      props.captureToolbars = true) := by
  have hsel : innerBlocksSelect store props.clientId small = .ok
      { block := b
        hasOverlay := b.name != "core/template" && !(store.isBlockSelected props.clientId) &&
          !(store.hasSelectedInnerBlock props.clientId true)
        enableClickThrough := store.isNavigationMode || small } := by
    rw [innerBlocksSelect, h]
  constructor
  · rw [classInRender_eq store registry props small _ "has-overlay" hsel,
      decide_eq_true_eq, (mem_overlay_classnames _ _).1]
    simp only [Bool.and_eq_true, Bool.or_eq_true, Bool.not_eq_true', bne_iff_ne, ne_eq]
    tauto
  · rw [classInRender_eq store registry props small _ "is-capturing-toolbar" hsel,
      decide_eq_true_eq, (mem_overlay_classnames _ _).2]

/-- Props for a render of id `b1` with neither the capture flag nor the
tag-name override. -/
def uibPropsCex : UIBProps :=
  { clientId := "b1", captureToolbars := false, experimentalTagName := false }

/-- The store of `blkA` with nothing selected and navigation mode off. -/
def storeCex : Store :=
  { getBlock := fun id => if id = "b1" then some blkA else none
    getBlockName := fun id => if id = "b1" then some "core/columns" else none
    isBlockSelected := fun _ => false
    hasSelectedInnerBlock := fun _ _ => false
    isNavigationMode := false }

/-- C3 fails as stated: in `storeCex` the overlay state is active
(`hasOverlay` is `true`), yet — navigation mode being off and the
viewport regular, so click-through is disabled — the rendered container
does not carry the `has-overlay` class. -/
theorem wrapper_classes_counterexample :
    ((innerBlocksSelect storeCex "b1" false).toOption.map (fun r => r.hasOverlay) =
      some true) ∧
    classInRender storeCex (fun _ => none) uibPropsCex false "has-overlay" = false := by
  decide

theorem wrapper_classes_amended_witness :
    classInRender storeA (fun _ => none)
      { clientId := "b1", captureToolbars := true, experimentalTagName := false }
      false "has-overlay" = true ∧
    classInRender storeA (fun _ => none)
      { clientId := "b1", captureToolbars := true, experimentalTagName := false }
      false "is-capturing-toolbar" = true := by
  have h := wrapper_classes_amended storeA (fun _ => none)
    { clientId := "b1", captureToolbars := true, experimentalTagName := false }
    false blkA (by decide)
  exact ⟨h.1.mpr ⟨Or.inl (by decide), by decide, by decide, by decide⟩, h.2.mpr (by decide)⟩

/-- The empty store: no block is known for any id. -/
def emptyStore : Store :=
  { getBlock := fun _ => none
    getBlockName := fun _ => none
    isBlockSelected := fun _ => false
    hasSelectedInnerBlock := fun _ _ => false
    isNavigationMode := false }

/-- C4 (code bug): when the store returns no block for the id, the
`Uncontrolled` entry point degrades to the bare nested list as the
claim describes, but the `UncontrolledInnerBlocks` entry point (the
path behind `ForwardedInnerBlocks`) dereferences `theBlock.name` on the
absent block (index.js line 64) and the render aborts with a
`TypeError` instead of rendering the nested list. -/
theorem absent_block_render :
    (UncontrolledInnerBlocksRender emptyStore (fun _ => none) uibPropsCex false).toOption =
      none ∧
    UncontrolledRender emptyStore (fun _ => none) "b1" = RenderNode.blockListItems "b1" := by
  decide

/-- C5: for a present block whose type is unregistered or whose
descriptor declares no `providesContext` mapping, both render paths
produce output with no context-wrapping scope, with no error (the
full-wrapper path returns `.ok`, the `Uncontrolled` path is total). -/
theorem no_context_wrapper (store : Store) (registry : String → Option BlockType)
    (props : UIBProps) (small : Bool) (b : Block)
    (h : store.getBlock props.clientId = some b)
    (hdesc : registry b.name = none ∨
      ∃ bt, registry b.name = some bt ∧ bt.providesContext = none) :
    (UncontrolledInnerBlocksRender store registry props small).map
        RenderNode.hasContextWrapper = .ok false ∧
    (UncontrolledRender store registry props.clientId).hasContextWrapper = false := by
  have hsel : innerBlocksSelect store props.clientId small = .ok
      { block := b
        hasOverlay := b.name != "core/template" && !(store.isBlockSelected props.clientId) &&
          !(store.hasSelectedInnerBlock props.clientId true)
        enableClickThrough := store.isNavigationMode || small } := by
    rw [innerBlocksSelect, h]
  constructor
  · unfold UncontrolledInnerBlocksRender
    rw [hsel]
    rcases hdesc with hn | ⟨bt, hbt, hpc⟩
    · simp only [hn]
      cases hT : props.experimentalTagName <;>
        simp [Except.map, RenderNode.hasContextWrapper, hT]
    · simp only [hbt, hpc]
      cases hT : props.experimentalTagName <;>
        simp [Except.map, RenderNode.hasContextWrapper, hT]
  · unfold UncontrolledRender
    rw [h]
    rcases hdesc with hn | ⟨bt, hbt, hpc⟩
    · simp [hn, RenderNode.hasContextWrapper]
    · simp [hbt, hpc, RenderNode.hasContextWrapper]

theorem no_context_wrapper_witness :
    (UncontrolledRender storeA (fun _ => none) "b1").hasContextWrapper = false :=
  (no_context_wrapper storeA (fun _ => none) uibPropsCex false blkA (by decide)
    (Or.inl rfl)).2

/-- C6: for a descriptor declaring a `providesContext` mapping, the
derived context bag has exactly one entry (context-key, current
attribute value) per declared pair and no other keys — its keys are
exactly, hence a subset of, the declared context keys — and each render
recomputes it from the block's current attributes (the rendered
provider's value is `getBlockContext` of those attributes). -/
theorem context_bag_exact (attrs : List (String × JSVal)) (bt : BlockType)
    (m : List (String × String)) (h : bt.providesContext = some m) :
    (getBlockContext attrs bt).length = m.length ∧
    (∀ p, p ∈ m → (p.2, jsGet attrs p.1) ∈ getBlockContext attrs bt) ∧
    (getBlockContext attrs bt).map Prod.fst = m.map Prod.snd ∧
    (∀ (store : Store) (registry : String → Option BlockType) (clientId : String) (b : Block),
      store.getBlock clientId = some b → registry b.name = some bt →
      UncontrolledRender store registry clientId =
        RenderNode.contextProvider (getBlockContext b.attributes bt)
          (RenderNode.blockListItems clientId)) := by
  refine ⟨?_, ?_, ?_, ?_⟩
  · simp [getBlockContext, h]
  · intro p hp
    simp only [getBlockContext, h]
    exact List.mem_map_of_mem (fun q => (q.2, jsGet attrs q.1)) hp
  · simp [getBlockContext, h, List.map_map]
  · intro store registry clientId b hb hreg
    simp [UncontrolledRender, hb, hreg, h]

/-- A block type providing one context key, for the concrete witness. -/
def btA : BlockType := { providesContext := some [("colCount", "ns/colCount")] }

theorem context_bag_exact_witness :
    (getBlockContext [("colCount", JSVal.number 3)] btA).map Prod.fst = ["ns/colCount"] :=
  ((context_bag_exact [("colCount", JSVal.number 3)] btA [("colCount", "ns/colCount")]
    rfl).2.2.1).trans (by decide)

/-- C7: in every render of either nested-list component the Settings
Propagator effect runs before the Template Synchronizer effect (hook
call order, index.js lines 71–84 and 167–180), so the lock mode the
synchronizer observes when it runs is the one the propagator wrote on
that same render. -/
theorem settings_before_template_sync (st : EditorState) (p : HookProps)
    (lk : TemplateLock) (h : p.templateLock = some lk) :
    lockSeenAt st (uncontrolledInnerBlocksEffects p) p.clientId = some (some lk) ∧
    lockSeenAt st (uncontrolledEffects p) p.clientId = some (some lk) := by
  have key : resolvedLock (applyNestedSettingsUpdate st p.clientId p.allowedBlocks
      p.templateLock p.captureToolbars p.orientation) p.clientId = some lk := by
    rw [h]
    unfold applyNestedSettingsUpdate
    cases hprev : lookupAssoc st.settingsMap p.clientId with
    | none =>
        simp only [hprev, orElseOpt]
        rw [if_neg (by simp)]
        simp [resolvedLock, lookupAssoc_setAssoc_self]
    | some s =>
        simp only [hprev, orElseOpt]
        split
        · next heq =>
            rw [Option.some.injEq] at heq
            have hs : s.templateLock = some lk := by rw [heq]
            simp [resolvedLock, hprev, hs]
        · next _ =>
            simp [resolvedLock, lookupAssoc_setAssoc_self]
  constructor <;>
    simp [uncontrolledInnerBlocksEffects, uncontrolledEffects, lockSeenAt, applyEffect, key]

/-- The empty editor state, for the concrete witnesses. -/
def stEmpty : EditorState :=
  { settingsMap := [], childrenMap := [], lastTemplateMap := [] }

/-- Hook arguments for root id `root` with an `"insert"` lock, for the
concrete witnesses. -/
def hookPropsA : HookProps :=
  { clientId := "root", allowedBlocks := none, templateLock := some .lockInsert
    captureToolbars := false, orientation := none, template := [] }

theorem settings_before_template_sync_witness :
    lockSeenAt stEmpty (uncontrolledInnerBlocksEffects hookPropsA) "root" =
      some (some TemplateLock.lockInsert) :=
  (settings_before_template_sync stEmpty hookPropsA .lockInsert rfl).1

/-- C8: a root id first associated with a non-empty template while it
has zero children gets the synthesized template children exactly once —
re-running the synchronizer with the same template (and hence the same
lock) is the identity; a root id that already has children when first
encountered keeps them, and later re-runs with the same template and
lock change nothing. -/
theorem template_sync_once (st : EditorState) (clientId : String)
    (tmpl : List TemplateNode) :
    (lookupAssoc st.lastTemplateMap clientId = none →
     storedChildren st clientId = [] →
     tmpl ≠ [] →
     lookupAssoc (applyTemplateSync st clientId tmpl).childrenMap clientId =
       some (synthesizeList tmpl) ∧
     applyTemplateSync (applyTemplateSync st clientId tmpl) clientId tmpl =
       applyTemplateSync st clientId tmpl) ∧
    (lookupAssoc st.lastTemplateMap clientId = none →
     storedChildren st clientId ≠ [] →
     lookupAssoc (applyTemplateSync st clientId tmpl).childrenMap clientId =
       lookupAssoc st.childrenMap clientId ∧
     applyTemplateSync (applyTemplateSync st clientId tmpl) clientId tmpl =
       applyTemplateSync st clientId tmpl) := by
  constructor
  · intro hfresh hempty htmpl
    cases tmpl with
    | nil => exact absurd rfl htmpl
    | cons t ts =>
        have hstep : applyTemplateSync st clientId (t :: ts) =
            { st with
              lastTemplateMap := setAssoc st.lastTemplateMap clientId (t :: ts)
              childrenMap := setAssoc st.childrenMap clientId (synthesizeList (t :: ts)) } := by
          simp [applyTemplateSync, hfresh, hempty]
        refine ⟨?_, ?_⟩
        · rw [hstep]
          exact lookupAssoc_setAssoc_self _ _ _
        · conv_lhs => rw [hstep]
          simp [applyTemplateSync, lookupAssoc_setAssoc_self, tlistEq_refl, hstep,
            hfresh, hempty]
  · intro hfresh hne
    cases hchild : storedChildren st clientId with
    | nil => exact absurd hchild hne
    | cons c cs =>
        have hstep : applyTemplateSync st clientId tmpl =
            { st with lastTemplateMap := setAssoc st.lastTemplateMap clientId tmpl } := by
          simp [applyTemplateSync, hfresh, hchild]
        refine ⟨?_, ?_⟩
        · rw [hstep]
        · conv_lhs => rw [hstep]
          simp [applyTemplateSync, lookupAssoc_setAssoc_self, tlistEq_refl, hstep,
            hfresh, hchild]

/-- A one-paragraph template, for the concrete witness. -/
def tmplA : List TemplateNode := [TemplateNode.mk "core/paragraph" [] []]

theorem template_sync_once_witness :
    lookupAssoc (applyTemplateSync stEmpty "root" tmplA).childrenMap "root" =
      some (synthesizeList tmplA) ∧
    applyTemplateSync (applyTemplateSync stEmpty "root" tmplA) "root" tmplA =
      applyTemplateSync stEmpty "root" tmplA :=
  (template_sync_once stEmpty "root" tmplA).1 rfl rfl (List.cons_ne_nil _ _)

/-- C10: the props-merging entry point passes every caller field other
than `ref`, `className` and `children` through unchanged, returns the
caller's `ref` whenever one is supplied, and always includes
`block-editor-block-list__layout` among the class tokens alongside the
caller's class name. -/
theorem props_merging_frame (store : Store) (clientId : String) (small : Bool)
    (props : ElementProps) (v f : Option JSVal) :
    (useInnerBlocksPropsFn store clientId small props v f).dataFields = props.dataFields ∧
    (∀ n, props.ref = some n →
      (useInnerBlocksPropsFn store clientId small props v f).ref = .given n) ∧
    "block-editor-block-list__layout" ∈
      (useInnerBlocksPropsFn store clientId small props v f).classNameTokens ∧
    (∀ c, props.className = some c → c ≠ "" →
      c ∈ (useInnerBlocksPropsFn store clientId small props v f).classNameTokens) := by
  refine ⟨rfl, ?_, ?_, ?_⟩
  · intro n hn
    simp [useInnerBlocksPropsFn, hn]
  · unfold useInnerBlocksPropsFn classnames
    cases props.className with
    | none => simp
    | some c =>
        by_cases hc : c = "" <;> simp [hc]
  · intro c hc hne
    unfold useInnerBlocksPropsFn classnames
    rw [hc]
    simp [hne]

/-- Caller element props with a ref, a class name and one data field,
for the concrete witness. -/
def propsEl : ElementProps :=
  { ref := some 5, className := some "my-class"
    dataFields := [("data-x", JSVal.string "1")] }

theorem props_merging_frame_witness :
    (useInnerBlocksPropsFn storeA "b1" false propsEl none none).dataFields =
      [("data-x", JSVal.string "1")] ∧
    (useInnerBlocksPropsFn storeA "b1" false propsEl none none).ref = RefVal.given 5 ∧
    "block-editor-block-list__layout" ∈
      (useInnerBlocksPropsFn storeA "b1" false propsEl none none).classNameTokens ∧
    "my-class" ∈ (useInnerBlocksPropsFn storeA "b1" false propsEl none none).classNameTokens := by
  have h := props_merging_frame storeA "b1" false propsEl none none
  exact ⟨h.1, h.2.1 5 rfl, h.2.2.1, h.2.2.2 "my-class" rfl (by decide)⟩
